import Mathlib

/-!
Shallow embedding of the ledger/authorization core of the credit-card
transaction platform: the transaction service (authorization and payments),
the settlement service, the statement service, and the repositories they
call.  Money amounts are modelled as exact rationals (the source stores
decimal(12,2) columns and computes with JS numbers); the database is
modelled as an explicit Store record threaded through every operation;
fallible operations return Except.  Calendar timestamps are modelled at
day granularity as year/month/day triples ordered lexicographically,
with months indexed 0 to 11 as in the JS Date API.
-/

namespace CreditLedger

/-- Calendar date at day granularity; month is the JS Date month index
(0 to 11). -/
structure Date where
  year : Int
  month : Nat
  day : Nat
deriving DecidableEq

/-- Lexicographic comparison of dates, mirroring how the database compares
timestamp columns. -/
def Date.leb (a b : Date) : Bool :=
  if a.year = b.year then
    if a.month = b.month then decide (a.day ≤ b.day)
    else decide (a.month < b.month)
  else decide (a.year < b.year)

/-- Strict lexicographic comparison of dates. -/
def Date.ltb (a b : Date) : Bool :=
  if a.year = b.year then
    if a.month = b.month then decide (a.day < b.day)
    else decide (a.month < b.month)
  else decide (a.year < b.year)

/-- Date corresponding to new Date(0) in JS: 1970-01-01. -/
def epochDate : Date := { year := 1970, month := 0, day := 1 }

/-- Gregorian leap-year test, as implemented by the JS Date rollover. -/
def Date.isLeapYear (y : Int) : Bool :=
  (y % 4 == 0 && y % 100 != 0) || y % 400 == 0

/-- Number of days in a month (month index 0 to 11). -/
def Date.daysInMonth (y : Int) (m : Nat) : Nat :=
  if m = 1 then (if Date.isLeapYear y then 29 else 28)
  else if m = 3 ∨ m = 5 ∨ m = 8 ∨ m = 10 then 30
  else 31

/-- Successor day, rolling over month and year boundaries as JS setDate does. -/
def Date.nextDay (d : Date) : Date :=
  if d.day < Date.daysInMonth d.year d.month then
    { d with day := d.day + 1 }
  else if d.month < 11 then
    { year := d.year, month := d.month + 1, day := 1 }
  else
    { year := d.year + 1, month := 0, day := 1 }

/-- Add a number of calendar days to a date, as JS setDate arithmetic does. -/
def Date.addDays (d : Date) : Nat → Date
  | 0 => d
  | n + 1 => Date.addDays (Date.nextDay d) n

/-- Row of the accounts table.  Columns the ledger core never reads
(user id, account number, apr rate, timestamps) are elided. -/
structure Account where
  id : String
  credit_limit : Rat
  current_balance : Rat
  statement_closing_day : Nat
  payment_due_day : Nat
  status : String
deriving DecidableEq

/-- Row of the cards table.  Columns the ledger core never reads
(last four, hash, expiry, type, timestamps) are elided. -/
structure Card where
  id : String
  account_id : String
  spending_limit : Option Rat
  status : String
deriving DecidableEq

/-- Row of the transactions table.  Display-only columns (merchant data,
authorization code, currency of the decline audit row, timestamps other
than created_at) are elided; posted_at is modelled as the boolean
posted_at_set recording whether the posted timestamp was stamped. -/
structure Txn where
  id : String
  card_id : Option String
  account_id : String
  amount : Rat
  transaction_type : String
  status : String
  previous_balance : Rat
  new_balance : Rat
  decline_reason : Option String
  statement_id : Option String
  posted_at_set : Bool
  created_at : Date
deriving DecidableEq

/-- Row of the statements table. -/
structure Statement where
  id : String
  account_id : String
  statement_date : Date
  closing_balance : Rat
  previous_balance : Rat
  total_purchases : Rat
  total_payments : Rat
  total_fees : Rat
  total_interest : Rat
  minimum_payment_due : Rat
  payment_due_date : Date
  status : String
deriving DecidableEq

/-- The relational store: one list per table, in insertion order. -/
structure Store where
  accounts : List Account
  cards : List Card
  transactions : List Txn
  statements : List Statement
deriving DecidableEq

/-- TransactionRepository.findById: first transactions row with the given id. -/
def findTxnById (st : Store) (transactionId : String) : Option Txn :=
  st.transactions.find? (fun t => t.id == transactionId)

/-- TransactionRepository method named exists in the source: count of rows
with the given id is positive. -/
def txnExistsId (st : Store) (transactionId : String) : Bool :=
  (st.transactions.filter (fun t => t.id == transactionId)).length > 0

/-- TransactionRepository.create: a plain insert followed by findById.
The transactions table declares id as its primary key, so inserting a
duplicate id raises a uniqueness-constraint error, modelled as Except.error. -/
def createTxn (st : Store) (t : Txn) : Except String (Store × Txn) :=
  if txnExistsId st t.id then
    .error "UNIQUE constraint failed: transactions.id"
  else
    let st2 : Store := { st with transactions := st.transactions ++ [t] }
    .ok (st2, (findTxnById st2 t.id).getD t)

/-- TransactionRepository.updateStatus: sets status on every row with the
given id and stamps posted_at when the new status is posted, then returns
findById.  No other column is written. -/
def updateTxnStatus (st : Store) (transactionId : String) (status : String) :
    Store × Option Txn :=
  let st2 : Store := { st with transactions := st.transactions.map (fun t =>
    if t.id == transactionId then
      { t with status := status,
               posted_at_set := if status == "posted" then true else t.posted_at_set }
    else t) }
  (st2, findTxnById st2 transactionId)

/-- AccountRepository.findById: first accounts row with the given id. -/
def findAccountById (st : Store) (accountId : String) : Option Account :=
  st.accounts.find? (fun a => a.id == accountId)

/-- AccountRepository.updateBalance: sets current_balance on the account row
and returns findById. -/
def updateBalance (st : Store) (accountId : String) (newBalance : Rat) :
    Store × Option Account :=
  let st2 : Store := { st with accounts := st.accounts.map (fun a =>
    if a.id == accountId then { a with current_balance := newBalance } else a) }
  (st2, findAccountById st2 accountId)

/-- CardRepository.findById: the cards row joined with its accounts row, so a
card whose account row is absent is invisible. -/
def findCardById (st : Store) (cardId : String) : Option Card :=
  match st.cards.find? (fun c => c.id == cardId) with
  | some c => if (findAccountById st c.account_id).isSome then some c else none
  | none => none

/-- Authorization webhook payload; amount is in minor units (cents).
Merchant data is pass-through only and is elided together with the
merchant columns of the transaction row. -/
structure WebhookData where
  id : String
  card_id : String
  amount : Rat
deriving DecidableEq

/-- Result shape of authorizeTransaction. -/
structure AuthResult where
  approved : Bool
  reason : Option String
  transaction : Option Txn
deriving DecidableEq

/-- TransactionService private helper declineTransaction: when a card is
known, re-fetch its account and insert a declined audit transaction whose
previous and new balance are both the current balance; a missing account
row makes the JS code dereference undefined, modelled as an error caught
by the caller.  The decline reason detail interpolated into some reason
strings (dollar figures) is display formatting and is elided. -/
def declineTransactionHelper (st : Store) (now : Date) (w : WebhookData)
    (card : Option Card) (reason : String) : Except String (AuthResult × Store) :=
  match card with
  | some c =>
    match findAccountById st c.account_id with
    | none => .error "TypeError: cannot read property of undefined"
    | some account =>
      match createTxn st
        { id := w.id
          card_id := some w.card_id
          account_id := account.id
          amount := w.amount / 100
          transaction_type := "purchase"
          status := "declined"
          previous_balance := account.current_balance
          new_balance := account.current_balance
          decline_reason := some reason
          statement_id := none
          posted_at_set := false
          created_at := now } with
      | .ok (st2, _) =>
        .ok ({ approved := false, reason := some reason, transaction := none }, st2)
      | .error e => .error e
  | none => .ok ({ approved := false, reason := some reason, transaction := none }, st)

/-- The step-3 account gate reads the property account_status from the row
returned by accountRepository.findById.  That query is SELECT * on the
accounts table, whose column is named status; no alias produces
account_status there (the alias exists only on the card join in
cardRepository), so the property read yields undefined, modelled as none. -/
def accountStatusRead (_account : Account) : Option String := none

/-- Steps 2 to 6 of TransactionService.authorizeTransaction: card lookup and
status gate, account lookup and status gate, available-credit gate,
card-spending-limit gate, then the commit that inserts the pending
transaction and applies the balance update.  The account gate compares the
undefined account_status property read (see accountStatusRead) against
active, so it always declines Account not active, and the credit,
card-limit and commit branches after it are dead code, kept here verbatim
for fidelity.  The JS truthiness test on the optional card spending limit
(0 and null are falsy) is modelled explicitly. -/
def authorizeChecks (st : Store) (now : Date) (w : WebhookData) :
    Except String (AuthResult × Store) :=
  match findCardById st w.card_id with
  | none => declineTransactionHelper st now w none "Card not found"
  | some card =>
    if card.status != "active" then
      declineTransactionHelper st now w (some card) ("Card status is " ++ card.status)
    else
      match findAccountById st card.account_id with
      | none => declineTransactionHelper st now w (some card) "Account not active"
      | some account =>
        if accountStatusRead account != some "active" then
          declineTransactionHelper st now w (some card) "Account not active"
        else
          let availableCredit := account.credit_limit - account.current_balance
          if availableCredit < w.amount / 100 then
            declineTransactionHelper st now w (some card) "Insufficient credit"
          else
            let overCardLimit : Bool :=
              match card.spending_limit with
              | some l => l != 0 && decide (w.amount / 100 > l)
              | none => false
            if overCardLimit then
              declineTransactionHelper st now w (some card) "Exceeds card spending limit"
            else
              let amountInDollars := w.amount / 100
              let previousBalance := account.current_balance
              let newBalance := previousBalance + amountInDollars
              match createTxn st
                { id := w.id
                  card_id := some w.card_id
                  account_id := account.id
                  amount := amountInDollars
                  transaction_type := "purchase"
                  status := "pending"
                  previous_balance := previousBalance
                  new_balance := newBalance
                  decline_reason := none
                  statement_id := none
                  posted_at_set := false
                  created_at := now } with
              | .error e => .error e
              | .ok (st2, transaction) =>
                let (st3, _) := updateBalance st2 account.id newBalance
                .ok ({ approved := true, reason := none, transaction := some transaction }, st3)

/-- TransactionService.authorizeTransaction: the idempotency gate first; when
the id already exists, return the previously recorded decision without
mutating anything; otherwise run the checks and commit, with the
surrounding try/catch turning any thrown error into an approved-false
internal-server-error result.  Every error the body can raise is raised
before its first store mutation, so the catch leaves the store unchanged,
as the database does. -/
def authorizeTransaction (st : Store) (now : Date) (w : WebhookData) :
    AuthResult × Store :=
  if txnExistsId st w.id then
    match findTxnById st w.id with
    | some existingTxn =>
      ({ approved := existingTxn.status == "pending" || existingTxn.status == "posted",
         reason := none, transaction := some existingTxn }, st)
    | none =>
      ({ approved := false, reason := some "Internal server error", transaction := none }, st)
  else
    match authorizeChecks st now w with
    | .ok r => r
    | .error _ =>
      ({ approved := false, reason := some "Internal server error", transaction := none }, st)

/-- Section 5 of the spec describes two concurrent deliveries of the same id
racing past the idempotency check.  This models the losing delivery: it has
already observed the not-exists answer, and its body now runs against the
store into which the winning delivery has inserted the row, so its insert
hits the uniqueness constraint and lands in the same catch as
authorizeTransaction. -/
def authorizeTransactionAfterStaleCheck (st : Store) (now : Date) (w : WebhookData) :
    AuthResult × Store :=
  match authorizeChecks st now w with
  | .ok r => r
  | .error _ =>
    ({ approved := false, reason := some "Internal server error", transaction := none }, st)

/-- Input shape of SettlementService.settleTransaction. -/
structure SettlementData where
  transaction_id : String
  final_amount : Option Rat
deriving DecidableEq

/-- Result shape of SettlementService.settleTransaction. -/
structure SettleResult where
  settled : Bool
  reason : Option String
  transaction : Option Txn
deriving DecidableEq

/-- SettlementService private helper handleAuthorizationAdjustment: adjust the
account balance by the difference between the final and the originally
authorized amount, then issue a status update that keeps the transaction
pending; the transaction row itself never receives the final amount.  A
missing account row makes the JS code dereference undefined inside the
difference branch, modelled as an error caught by the caller. -/
def handleAuthorizationAdjustment (st : Store) (transaction : Txn)
    (finalAmount : Rat) : Except String Store :=
  let difference := finalAmount - transaction.amount
  let accountFound := findAccountById st transaction.account_id
  if difference != 0 then
    match accountFound with
    | none => .error "TypeError: cannot read current_balance of undefined"
    | some account =>
      let newBalance := account.current_balance + difference
      let (st2, _) := updateBalance st account.id newBalance
      let (st3, _) := updateTxnStatus st2 transaction.id "pending"
      .ok st3
  else
    .ok st

/-- SettlementService.settleTransaction: find the transaction, reject unless
it is pending, apply the authorization adjustment when a truthy final
amount differs from the authorized amount (a final amount of 0 is falsy in
JS and is therefore treated as absent), then transition the status to
posted.  The surrounding try/catch turns a thrown adjustment error into a
settled-false internal-server-error result before any mutation. -/
def settleTransaction (st : Store) (d : SettlementData) : SettleResult × Store :=
  match findTxnById st d.transaction_id with
  | none => ({ settled := false, reason := some "Transaction not found", transaction := none }, st)
  | some transaction =>
    if transaction.status != "pending" then
      ({ settled := false,
         reason := some ("Transaction already " ++ transaction.status),
         transaction := none }, st)
    else
      let hasAmountChange : Bool :=
        match d.final_amount with
        | some f => f != 0 && f != transaction.amount
        | none => false
      let adjusted : Except String Store :=
        if hasAmountChange then
          handleAuthorizationAdjustment st transaction (d.final_amount.getD 0)
        else
          .ok st
      match adjusted with
      | .error _ =>
        ({ settled := false, reason := some "Internal server error", transaction := none }, st)
      | .ok st2 =>
        let (st3, settledTransaction) := updateTxnStatus st2 d.transaction_id "posted"
        ({ settled := true, reason := none, transaction := settledTransaction }, st3)

/-- Accumulator shape of StatementService private helper calculateTotals. -/
structure Totals where
  purchases : Rat
  payments : Rat
  fees : Rat
  interest : Rat
deriving DecidableEq

/-- StatementService private helper calculateTotals: one pass over the
transactions, the transaction type selecting exactly one bucket; payment
amounts contribute their absolute value; other types contribute nothing. -/
def calculateTotals (transactions : List Txn) : Totals :=
  transactions.foldl
    (fun totals t =>
      if t.transaction_type == "purchase" then
        { totals with purchases := totals.purchases + t.amount }
      else if t.transaction_type == "payment" then
        { totals with payments := totals.payments + abs t.amount }
      else if t.transaction_type == "fee" then
        { totals with fees := totals.fees + t.amount }
      else if t.transaction_type == "interest" then
        { totals with interest := totals.interest + t.amount }
      else totals)
    { purchases := 0, payments := 0, fees := 0, interest := 0 }

/-- StatementService private helper getFirstDayOfMonth: the first day of the
month of the given instant. -/
def getFirstDayOfMonth (now : Date) : Date :=
  { year := now.year, month := now.month, day := 1 }

/-- StatementService private helper getLastStatement: the statement of the
account with the maximal statement date (order-by descending, first row). -/
def getLastStatement (st : Store) (accountId : String) : Option Statement :=
  (st.statements.filter (fun s => s.account_id == accountId)).foldl
    (fun best s =>
      match best with
      | none => some s
      | some b => if Date.ltb b.statement_date s.statement_date then some s else best)
    none

/-- StatementService private helper calculatePaymentDueDate: the closing day
in the current month plus the payment-due offset in calendar days. -/
def calculatePaymentDueDate (now : Date) (closingDay : Nat) (paymentDueDays : Nat) : Date :=
  Date.addDays { year := now.year, month := now.month, day := closingDay } paymentDueDays

/-- Result shape of generateStatementForAccount. -/
structure GenerateResult where
  generated : Bool
  reason : Option String
  statement : Option Statement
deriving DecidableEq

/-- StatementService.generateStatementForAccount: look up the account, skip
when a statement for the account dated on or after the first day of the
current calendar month already exists, aggregate the posted transactions
created strictly after the previous statement date (or the epoch), insert
the statement row, and link the aggregated transactions to it.  The source
inlines the account and statement lookups through the query builder; they
are the same queries as the repository lookups used here.  The generated
statement id (a uuid) is passed in as a parameter; the chronological
ordering of the aggregated transactions is elided because every consumer
of the list is order-insensitive. -/
def generateStatementForAccount (st : Store) (now : Date) (statementId : String)
    (accountId : String) : GenerateResult × Store :=
  match findAccountById st accountId with
  | none => ({ generated := false, reason := some "Account not found", statement := none }, st)
  | some account =>
    match st.statements.find? (fun s =>
        s.account_id == accountId && Date.leb (getFirstDayOfMonth now) s.statement_date) with
    | some _ =>
      ({ generated := false, reason := some "Statement already exists", statement := none }, st)
    | none =>
      let lastStatement := getLastStatement st accountId
      let sinceDate := match lastStatement with
        | some s => s.statement_date
        | none => epochDate
      let transactions := st.transactions.filter (fun t =>
        t.account_id == accountId && t.status == "posted" && Date.ltb sinceDate t.created_at)
      let totals := calculateTotals transactions
      let minimumPayment := max 25 (account.current_balance * (2 / 100))
      let paymentDueDate :=
        calculatePaymentDueDate now account.statement_closing_day account.payment_due_day
      let stmt : Statement :=
        { id := statementId
          account_id := accountId
          statement_date := now
          closing_balance := account.current_balance
          previous_balance := match lastStatement with
            | some s => s.closing_balance
            | none => 0
          total_purchases := totals.purchases
          total_payments := totals.payments
          total_fees := totals.fees
          total_interest := totals.interest
          minimum_payment_due := minimumPayment
          payment_due_date := paymentDueDate
          status := "generated" }
      let st2 : Store := { st with statements := st.statements ++ [stmt] }
      let st3 : Store :=
        if transactions.length > 0 then
          { st2 with transactions := st2.transactions.map (fun t =>
              if (transactions.map (fun u => u.id)).contains t.id then
                { t with statement_id := some statementId }
              else t) }
        else st2
      let statement := st3.statements.find? (fun s => s.id == statementId)
      ({ generated := true, reason := none, statement := statement }, st3)

/-! Concrete instances used by witnesses and counterexamples. -/

/-- Sample active account with a 5000 credit limit and the given balance. -/
def mkAccount (bal : Rat) : Account :=
  { id := "acc_1", credit_limit := 5000, current_balance := bal,
    statement_closing_day := 15, payment_due_day := 21, status := "active" }

/-- Sample active card attached to the sample account. -/
def theCard : Card :=
  { id := "card_1", account_id := "acc_1", spending_limit := none, status := "active" }

/-- Sample date used as the current instant. -/
def day0 : Date := { year := 2024, month := 0, day := 15 }

/-- Sample pending purchase transaction of 100 on the sample account. -/
def basePendingTxn : Txn :=
  { id := "txn_1", card_id := some "card_1", account_id := "acc_1", amount := 100,
    transaction_type := "purchase", status := "pending", previous_balance := 0,
    new_balance := 100, decline_reason := none, statement_id := none,
    posted_at_set := false, created_at := { year := 2024, month := 0, day := 10 } }

/-- Store with the sample account and card and no transactions. -/
def storeNoTxn : Store :=
  { accounts := [mkAccount 0], cards := [theCard], transactions := [], statements := [] }

/-- Store in which the sample pending authorization of 100 has been recorded
and applied to the balance. -/
def storeWithPending : Store :=
  { accounts := [mkAccount 100], cards := [theCard], transactions := [basePendingTxn],
    statements := [] }

/-- Webhook delivery of a 10000-cent purchase under the sample id. -/
def webhook100 : WebhookData := { id := "txn_1", card_id := "card_1", amount := 10000 }

/-- Posted transaction helper for statement scenarios. -/
def mkPostedTxn (i : String) (amt : Rat) (ty : String) (d : Date) : Txn :=
  { id := i, card_id := none, account_id := "acc_1", amount := amt,
    transaction_type := ty, status := "posted", previous_balance := 0,
    new_balance := 0, decline_reason := none, statement_id := none,
    posted_at_set := true, created_at := d }

/-- Store for the statement scenario: balance 150, two posted purchases of 50
and 75 and one posted payment of 25, no prior statement. -/
def statementStore : Store :=
  { accounts := [mkAccount 150], cards := [],
    transactions :=
      [mkPostedTxn "t_a" 50 "purchase" { year := 2024, month := 0, day := 3 },
       mkPostedTxn "t_b" 75 "purchase" { year := 2024, month := 0, day := 5 },
       mkPostedTxn "t_c" (-25) "payment" { year := 2024, month := 0, day := 7 }],
    statements := [] }

/-- Sample statement row dated inside the month of day0. -/
def sampleStatement : Statement :=
  { id := "stmt_0", account_id := "acc_1",
    statement_date := { year := 2024, month := 0, day := 2 },
    closing_balance := 150, previous_balance := 0, total_purchases := 125,
    total_payments := 25, total_fees := 0, total_interest := 0,
    minimum_payment_due := 25,
    payment_due_date := { year := 2024, month := 1, day := 5 },
    status := "generated" }

/-- Store that already holds a statement for the current month. -/
def storeWithStatement : Store :=
  { accounts := [mkAccount 150], cards := [], transactions := [],
    statements := [sampleStatement] }

/-- Store in which the sample transaction has already been posted. -/
def storePosted : Store :=
  { accounts := [mkAccount 100], cards := [theCard],
    transactions := [{ basePendingTxn with status := "posted", posted_at_set := true }],
    statements := [] }

/-- Declined audit transaction produced by delivering webhook100 to the fresh
store: a fully valid request still declines at the account gate. -/
def authGateDeclinedTxn : Txn :=
  { id := "txn_1", card_id := some "card_1", account_id := "acc_1", amount := 100,
    transaction_type := "purchase", status := "declined", previous_balance := 0,
    new_balance := 0, decline_reason := some "Account not active",
    statement_id := none, posted_at_set := false, created_at := day0 }

/-- Sum of the amounts of the purchase-type transactions of a list. -/
def purchaseSum (ts : List Txn) : Rat :=
  ((ts.filter (fun t => t.transaction_type == "purchase")).map (fun t => t.amount)).sum

/-- Sum of the absolute amounts of the payment-type transactions of a list. -/
def paymentAbsSum (ts : List Txn) : Rat :=
  ((ts.filter (fun t => t.transaction_type == "payment")).map (fun t => abs t.amount)).sum

/-- Sum of the amounts of the fee-type transactions of a list. -/
def feeSum (ts : List Txn) : Rat :=
  ((ts.filter (fun t => t.transaction_type == "fee")).map (fun t => t.amount)).sum

/-- Sum of the amounts of the interest-type transactions of a list. -/
def interestSum (ts : List Txn) : Rat :=
  ((ts.filter (fun t => t.transaction_type == "interest")).map (fun t => t.amount)).sum

/-! Helper lemmas shared by the claim theorems. -/

theorem txnExistsId_eq_isSome (st : Store) (tid : String) :
    txnExistsId st tid = (findTxnById st tid).isSome := by
  unfold txnExistsId findTxnById
  induction st.transactions with
  | nil => rfl
  | cons x xs ih =>
    cases h : x.id == tid with
    | true => simp [List.find?_cons, h, List.filter_cons]
    | false => simpa [List.find?_cons, h, List.filter_cons] using ih

theorem find?_append_singleton {α : Type} (p : α → Bool) (l : List α) (x : α)
    (hl : l.find? p = none) (hx : p x = true) : (l ++ [x]).find? p = some x := by
  rw [List.find?_append, hl]
  simp [List.find?_cons, hx]

theorem txnExistsId_of_findTxnById (st : Store) (tid : String) (t : Txn)
    (h : findTxnById st tid = some t) : txnExistsId st tid = true := by
  rw [txnExistsId_eq_isSome, h]; rfl

theorem authorize_duplicate (st : Store) (now : Date) (w : WebhookData) (t : Txn)
    (h : findTxnById st w.id = some t) :
    authorizeTransaction st now w =
      ({ approved := t.status == "pending" || t.status == "posted",
         reason := none, transaction := some t }, st) := by
  have hex : txnExistsId st w.id = true := txnExistsId_of_findTxnById st w.id t h
  unfold authorizeTransaction
  rw [hex, h]
  simp

theorem findTxnById_updateTxnStatus (st : Store) (tid s : String) :
    findTxnById (updateTxnStatus st tid s).1 tid =
      (findTxnById st tid).map (fun t =>
        { t with status := s,
                 posted_at_set := if s == "posted" then true else t.posted_at_set }) := by
  unfold updateTxnStatus findTxnById
  dsimp only
  induction st.transactions with
  | nil => rfl
  | cons x xs ih =>
    by_cases h : (x.id == tid) = true
    · have hx : x.id = tid := eq_of_beq h
      simp [List.find?_cons, h, hx]
    · simp only [List.map_cons, List.find?_cons, h, Bool.false_eq_true, if_neg, cond_false]
      simpa [h] using ih

theorem updateTxnStatus_preserves_money (st : Store) (tid s : String) :
    (updateTxnStatus st tid s).1.transactions.map
        (fun u => (u.amount, u.previous_balance, u.new_balance))
      = st.transactions.map (fun u => (u.amount, u.previous_balance, u.new_balance)) := by
  unfold updateTxnStatus
  dsimp only
  induction st.transactions with
  | nil => rfl
  | cons x xs ih =>
    simp only [List.map_cons, ih]
    by_cases h : (x.id == tid) = true <;> simp [h]

theorem totals_foldl_general (ts : List Txn) (init : Totals) :
    ts.foldl
      (fun totals t =>
        if t.transaction_type == "purchase" then
          { totals with purchases := totals.purchases + t.amount }
        else if t.transaction_type == "payment" then
          { totals with payments := totals.payments + abs t.amount }
        else if t.transaction_type == "fee" then
          { totals with fees := totals.fees + t.amount }
        else if t.transaction_type == "interest" then
          { totals with interest := totals.interest + t.amount }
        else totals) init =
      { purchases := init.purchases + purchaseSum ts,
        payments := init.payments + paymentAbsSum ts,
        fees := init.fees + feeSum ts,
        interest := init.interest + interestSum ts } := by
  induction ts generalizing init with
  | nil => simp [purchaseSum, paymentAbsSum, feeSum, interestSum]
  | cons t ts ih =>
    simp only [List.foldl_cons]
    rw [ih]
    by_cases h1 : t.transaction_type = "purchase"
    · simp [purchaseSum, paymentAbsSum, feeSum, interestSum, h1, List.filter_cons, add_assoc]
    · by_cases h2 : t.transaction_type = "payment"
      · simp [purchaseSum, paymentAbsSum, feeSum, interestSum, h1, h2, List.filter_cons,
          add_assoc]
      · by_cases h3 : t.transaction_type = "fee"
        · simp [purchaseSum, paymentAbsSum, feeSum, interestSum, h1, h2, h3, List.filter_cons,
            add_assoc]
        · by_cases h4 : t.transaction_type = "interest"
          · simp [purchaseSum, paymentAbsSum, feeSum, interestSum, h1, h2, h3, h4,
              List.filter_cons, add_assoc]
          · simp [purchaseSum, paymentAbsSum, feeSum, interestSum, h1, h2, h3, h4,
              List.filter_cons]

theorem generate_no_account (st : Store) (now : Date) (sid aid : String)
    (hA : findAccountById st aid = none) :
    generateStatementForAccount st now sid aid =
      ({ generated := false, reason := some "Account not found", statement := none }, st) := by
  simp only [generateStatementForAccount, hA]

theorem generate_already_exists (st : Store) (now : Date) (sid aid : String)
    (account : Account) (s : Statement)
    (hA : findAccountById st aid = some account)
    (hG : st.statements.find? (fun s =>
        s.account_id == aid && Date.leb (getFirstDayOfMonth now) s.statement_date) = some s) :
    generateStatementForAccount st now sid aid =
      ({ generated := false, reason := some "Statement already exists", statement := none },
       st) := by
  simp only [generateStatementForAccount, hA, hG]

theorem generate_success (st : Store) (now : Date) (sid aid : String) (account : Account)
    (hA : findAccountById st aid = some account)
    (hG : st.statements.find? (fun s =>
        s.account_id == aid && Date.leb (getFirstDayOfMonth now) s.statement_date) = none) :
    (generateStatementForAccount st now sid aid).1.generated = true
  ∧ (generateStatementForAccount st now sid aid).2.accounts = st.accounts
  ∧ ∃ stmt, (generateStatementForAccount st now sid aid).2.statements
        = st.statements ++ [stmt]
      ∧ stmt.account_id = aid ∧ stmt.statement_date = now := by
  simp only [generateStatementForAccount, hA, hG]
  refine ⟨trivial, ?_, ?_⟩
  · split <;> rfl
  · split <;> exact ⟨_, rfl, rfl, rfl⟩

theorem generate_generated_inversion (st : Store) (now : Date) (sid aid : String)
    (h : (generateStatementForAccount st now sid aid).1.generated = true) :
    ∃ account, findAccountById st aid = some account
      ∧ st.statements.find? (fun s =>
          s.account_id == aid && Date.leb (getFirstDayOfMonth now) s.statement_date) = none := by
  cases hA : findAccountById st aid with
  | none =>
    rw [generate_no_account st now sid aid hA] at h
    simp at h
  | some account =>
    cases hG : st.statements.find? (fun s =>
        s.account_id == aid && Date.leb (getFirstDayOfMonth now) s.statement_date) with
    | some s =>
      rw [generate_already_exists st now sid aid account s hA hG] at h
      simp at h
    | none => exact ⟨account, rfl, rfl⟩

/-- C1 (code-bug exhibit): a fresh, fully valid authorization request (active
card, active account, ample credit) declines with reason Account not active
and never touches the balance, because the service reads the property
account_status, which the account row lacks; so the idempotence contract
holds only vacuously for fresh deliveries: re-delivering the same webhook
returns the recorded declined decision with the store unchanged, and the
account balance reflects the amount zero times, not once. -/
theorem authorization_account_gate_bug :
    authorizeTransaction storeNoTxn day0 webhook100 =
      ({ approved := false, reason := some "Account not active", transaction := none },
       { storeNoTxn with transactions := [authGateDeclinedTxn] })
  ∧ ((authorizeTransaction storeNoTxn day0 webhook100).2.accounts.map
      (fun a => a.current_balance)) = [0]
  ∧ authorizeTransaction { storeNoTxn with transactions := [authGateDeclinedTxn] }
      day0 webhook100 =
      ({ approved := false, reason := none, transaction := some authGateDeclinedTxn },
       { storeNoTxn with transactions := [authGateDeclinedTxn] }) := by
  refine ⟨?_, ?_, ?_⟩
  · norm_num [authorizeTransaction, authorizeChecks, declineTransactionHelper, createTxn,
      txnExistsId, findTxnById, findCardById, findAccountById, accountStatusRead,
      storeNoTxn, mkAccount, theCard, webhook100, day0, authGateDeclinedTxn,
      List.find?, List.filter]
    rw [if_neg (show ¬ ((none : Option String) = some "active") by simp)]
  · norm_num [authorizeTransaction, authorizeChecks, declineTransactionHelper, createTxn,
      txnExistsId, findTxnById, findCardById, findAccountById, accountStatusRead,
      storeNoTxn, mkAccount, theCard, webhook100, day0,
      List.find?, List.filter]
    rw [if_neg (show ¬ ((none : Option String) = some "active") by simp)]
    norm_num
  · exact authorize_duplicate { storeNoTxn with transactions := [authGateDeclinedTxn] }
      day0 webhook100 authGateDeclinedTxn rfl

/-- C3 (code-bug exhibit): a supplied final amount of 0 is falsy in JS, so
settling the pending 100 authorization at a final amount of 0 posts the
transaction with no balance adjustment: the account balance still reflects
the 100 hold instead of the 0 final charge the adjustment contract calls
for. -/
theorem settlement_zero_final_amount_bug :
    (settleTransaction storeWithPending
        { transaction_id := "txn_1", final_amount := some 0 }).1.settled = true
  ∧ ((settleTransaction storeWithPending
        { transaction_id := "txn_1", final_amount := some 0 }).2.accounts.map
        (fun a => a.current_balance)) = [100]
  ∧ (100 : Rat) ≠ 0 := by
  refine ⟨?_, ?_, by norm_num⟩
  · norm_num [settleTransaction, findTxnById, updateTxnStatus, storeWithPending,
      basePendingTxn, mkAccount, theCard, List.find?, List.map, bne, beq_eq_decide]
  · norm_num [settleTransaction, findTxnById, updateTxnStatus, storeWithPending,
      basePendingTxn, mkAccount, theCard, List.find?, List.map, bne, beq_eq_decide]

/-- C4 (code-bug exhibit): the losing half of a concurrent duplicate
delivery, which raced past the idempotency check before the winning insert
landed, hits the uniqueness constraint on insert and gets the catch-all
answer approved-false with reason Internal server error, instead of the
re-fetched existing transaction the duplicate-handling contract calls for. -/
theorem uniqueness_violation_not_treated_as_duplicate :
    authorizeTransactionAfterStaleCheck storeWithPending day0 webhook100 =
      ({ approved := false, reason := some "Internal server error", transaction := none },
       storeWithPending)
  ∧ findTxnById storeWithPending webhook100.id = some basePendingTxn := by
  refine ⟨?_, rfl⟩
  norm_num [authorizeTransactionAfterStaleCheck, authorizeChecks, declineTransactionHelper,
    createTxn, txnExistsId, findTxnById, findCardById, findAccountById, accountStatusRead,
    storeWithPending, basePendingTxn, mkAccount, theCard, webhook100, day0,
    List.find?, List.filter]

/-- C5: settlement only proceeds on pending transactions.  When the stored
transaction has any status other than pending, settleTransaction returns
settled false with the reason naming that status and leaves the store,
hence the balance and the transaction, unchanged; when the transaction
does not exist it returns settled false with reason Transaction not found
and leaves the store unchanged. -/
theorem settlement_pending_only :
    (∀ (st : Store) (d : SettlementData) (t : Txn),
      findTxnById st d.transaction_id = some t →
      t.status ≠ "pending" →
      settleTransaction st d =
        ({ settled := false, reason := some ("Transaction already " ++ t.status),
           transaction := none }, st))
  ∧ (∀ (st : Store) (d : SettlementData),
      findTxnById st d.transaction_id = none →
      settleTransaction st d =
        ({ settled := false, reason := some "Transaction not found",
           transaction := none }, st)) := by
  constructor
  · intro st d t ht hs
    have hb : (t.status != "pending") = true := by
      simp [bne_iff_ne]
      exact hs
    simp only [settleTransaction, ht, hb, if_true]
  · intro st d h
    simp only [settleTransaction, h]

/-- Witness for C5: settling the already-posted sample transaction is
rejected naming the posted status, and settling a missing id is rejected
with Transaction not found, both leaving the store unchanged. -/
theorem settlement_pending_only_witness :
    settleTransaction storePosted { transaction_id := "txn_1", final_amount := none } =
      ({ settled := false, reason := some "Transaction already posted",
         transaction := none }, storePosted)
  ∧ settleTransaction storePosted { transaction_id := "txn_9", final_amount := none } =
      ({ settled := false, reason := some "Transaction not found",
         transaction := none }, storePosted) :=
  ⟨settlement_pending_only.1 storePosted { transaction_id := "txn_1", final_amount := none }
      { basePendingTxn with status := "posted", posted_at_set := true } rfl (by decide),
   settlement_pending_only.2 storePosted { transaction_id := "txn_9", final_amount := none }
      rfl⟩

/-- C6: statement totals are bucketed solely by transaction type: the totals
of a transaction list are exactly the per-type sums (purchase amounts,
absolute payment amounts, fee amounts, interest amounts), so no transaction
lands in more than one bucket; and on the concrete scenario of posted
purchases 50 and 75 and a posted payment 25 since the last statement, the
generated statement carries total purchases 125, total payments 25, and a
closing balance equal to the account balance 150 at generation time. -/
theorem statement_totals_bucketed :
    (∀ ts : List Txn, calculateTotals ts =
      { purchases := purchaseSum ts, payments := paymentAbsSum ts,
        fees := feeSum ts, interest := interestSum ts })
  ∧ ((generateStatementForAccount statementStore day0 "stmt_1" "acc_1").1.statement.map
        (fun s => (s.total_purchases, s.total_payments, s.closing_balance))
        = some (125, 25, 150)
      ∧ (findAccountById statementStore "acc_1").map (fun a => a.current_balance)
        = some 150) := by
  constructor
  · intro ts
    unfold calculateTotals
    rw [totals_foldl_general]
    simp
  · constructor
    · norm_num [generateStatementForAccount, findAccountById, getLastStatement,
        getFirstDayOfMonth, calculateTotals, statementStore, mkAccount, mkPostedTxn,
        epochDate, day0, Date.ltb, Date.leb, List.find?, List.filter, List.foldl,
        bne, beq_eq_decide]
      rw [if_neg (by decide : ¬ ("payment" = "purchase"))]
      norm_num
    · norm_num [findAccountById, statementStore, mkAccount, List.find?]

/-- C7: at most one statement per account per billing period.  After a
successful generation at an instant, a second generation in the same
calendar month returns generated false with reason Statement already
exists and returns the store exactly as the first generation left it. -/
theorem statement_unique_per_period (st : Store) (now1 now2 : Date)
    (sid1 sid2 aid : String)
    (h1 : (generateStatementForAccount st now1 sid1 aid).1.generated = true)
    (hy : now1.year = now2.year) (hm : now1.month = now2.month) (hd : 1 ≤ now1.day) :
    generateStatementForAccount (generateStatementForAccount st now1 sid1 aid).2
        now2 sid2 aid =
      ({ generated := false, reason := some "Statement already exists", statement := none },
       (generateStatementForAccount st now1 sid1 aid).2) := by
  obtain ⟨account, hA, hG⟩ := generate_generated_inversion st now1 sid1 aid h1
  obtain ⟨hgen, hacc, stmt, hstmts, hsid, hsdate⟩ :=
    generate_success st now1 sid1 aid account hA hG
  have hA1 : findAccountById (generateStatementForAccount st now1 sid1 aid).2 aid
      = some account := by
    unfold findAccountById at hA ⊢
    rw [hacc]
    exact hA
  have hfirst : getFirstDayOfMonth now2 = getFirstDayOfMonth now1 := by
    simp [getFirstDayOfMonth, hy, hm]
  have hleb : Date.leb (getFirstDayOfMonth now2) stmt.statement_date = true := by
    rw [hsdate, hfirst]
    simp [getFirstDayOfMonth, Date.leb, hd]
  have hpred : (fun s =>
      s.account_id == aid && Date.leb (getFirstDayOfMonth now2) s.statement_date) stmt
      = true := by
    simp [hsid, hleb]
  have hGnone2 : st.statements.find? (fun s =>
      s.account_id == aid && Date.leb (getFirstDayOfMonth now2) s.statement_date)
      = none := by
    rw [hfirst]
    exact hG
  have hG1 : (generateStatementForAccount st now1 sid1 aid).2.statements.find? (fun s =>
      s.account_id == aid && Date.leb (getFirstDayOfMonth now2) s.statement_date)
      = some stmt := by
    rw [hstmts]
    exact find?_append_singleton _ _ _ hGnone2 hpred
  exact generate_already_exists _ now2 sid2 aid account stmt hA1 hG1

/-- Witness for C7: generating for the statement scenario store succeeds, and
generating again on the same day yields generated false with reason
Statement already exists and an unchanged store. -/
theorem statement_unique_per_period_witness :
    generateStatementForAccount
        (generateStatementForAccount statementStore day0 "stmt_1" "acc_1").2
        day0 "stmt_2" "acc_1" =
      ({ generated := false, reason := some "Statement already exists", statement := none },
       (generateStatementForAccount statementStore day0 "stmt_1" "acc_1").2) :=
  statement_unique_per_period statementStore day0 day0 "stmt_1" "stmt_2" "acc_1"
    rfl rfl rfl (by norm_num [day0])

theorem findTxnById_updateBalance_fst (st : Store) (aid : String) (b : Rat)
    (tid : String) : findTxnById (updateBalance st aid b).1 tid = findTxnById st tid := rfl

/-- C9: an authorization adjustment changes only the account balance.  When a
pending transaction is settled with a supplied nonzero final amount that
differs from the authorized amount, settlement succeeds, the stored
transaction keeps its original amount and balance snapshots and only gains
the posted status and timestamp, and the amount, previous balance and new
balance columns of every transaction row are unchanged. -/
theorem adjustment_touches_only_balance (st : Store) (d : SettlementData) (t : Txn)
    (F : Rat) (account : Account)
    (ht : findTxnById st d.transaction_id = some t)
    (hp : t.status = "pending")
    (hf : d.final_amount = some F) (hf0 : F ≠ 0) (hfa : F ≠ t.amount)
    (ha : findAccountById st t.account_id = some account) :
    (settleTransaction st d).1.settled = true
  ∧ findTxnById (settleTransaction st d).2 d.transaction_id =
      some { t with status := "posted", posted_at_set := true }
  ∧ (settleTransaction st d).2.transactions.map
        (fun u => (u.amount, u.previous_balance, u.new_balance))
      = st.transactions.map (fun u => (u.amount, u.previous_balance, u.new_balance)) := by
  have hfind : st.transactions.find? (fun u => u.id == d.transaction_id) = some t := ht
  have hid : t.id = d.transaction_id := by
    have hpa := List.find?_some hfind
    exact eq_of_beq hpa
  have hbp : (t.status != "pending") = false := by simp [hp]
  have hfc : (F != 0 && F != t.amount) = true := by
    simp only [Bool.and_eq_true, bne_iff_ne]
    exact ⟨hf0, hfa⟩
  have hdiffb : (F - t.amount != 0) = true := by
    simp only [bne_iff_ne, sub_ne_zero]
    exact hfa
  cases hub : updateBalance st account.id (account.current_balance + (F - t.amount)) with
  | mk stB accB =>
  cases hu1 : updateTxnStatus stB t.id "pending" with
  | mk stP txnP =>
  cases hu2 : updateTxnStatus stP d.transaction_id "posted" with
  | mk stQ txnQ =>
  have hB1 : (updateBalance st account.id (account.current_balance + (F - t.amount))).1
      = stB := by rw [hub]
  have hP1 : (updateTxnStatus stB t.id "pending").1 = stP := by rw [hu1]
  have hQ1 : (updateTxnStatus stP d.transaction_id "posted").1 = stQ := by rw [hu2]
  have e : settleTransaction st d =
      ({ settled := true, reason := none, transaction := txnQ }, stQ) := by
    simp only [settleTransaction, ht, hbp, Bool.false_eq_true, if_false, hf, hfc, if_true,
      handleAuthorizationAdjustment, ha, hdiffb, Option.getD_some, hub, hu1, hu2]
  refine ⟨by rw [e], ?_, ?_⟩
  · rw [e]
    dsimp only
    rw [← hQ1, ← hid, findTxnById_updateTxnStatus, ← hP1, findTxnById_updateTxnStatus,
      ← hB1, findTxnById_updateBalance_fst, hid, ht]
    simp [hp, hid]
  · rw [e]
    dsimp only
    rw [← hQ1, updateTxnStatus_preserves_money, ← hP1, updateTxnStatus_preserves_money,
      ← hB1]
    rfl

/-- Witness for C9: settling the pending 100 authorization at a final amount
of 85 succeeds, posts the transaction with its original amount 100 and
snapshots intact, and leaves the money columns of the transaction table
unchanged. -/
theorem adjustment_touches_only_balance_witness :
    (settleTransaction storeWithPending
        { transaction_id := "txn_1", final_amount := some 85 }).1.settled = true
  ∧ findTxnById (settleTransaction storeWithPending
        { transaction_id := "txn_1", final_amount := some 85 }).2 "txn_1"
      = some { basePendingTxn with status := "posted", posted_at_set := true }
  ∧ (settleTransaction storeWithPending
        { transaction_id := "txn_1", final_amount := some 85 }).2.transactions.map
        (fun u => (u.amount, u.previous_balance, u.new_balance))
      = storeWithPending.transactions.map
        (fun u => (u.amount, u.previous_balance, u.new_balance)) :=
  adjustment_touches_only_balance storeWithPending
    { transaction_id := "txn_1", final_amount := some 85 }
    basePendingTxn 85 (mkAccount 100) rfl rfl rfl (by norm_num)
    (by norm_num [basePendingTxn]) rfl

/-- C10: the duplicate-statement guard keys on the calendar month.  For an
existing account, generation answers generated false with reason Statement
already exists exactly when some stored statement of that account is dated
on or after the first day of the month of the current instant; the account
statement-closing day plays no part in the guard. -/
theorem statement_guard_calendar_month (st : Store) (now : Date) (sid aid : String)
    (account : Account) (hA : findAccountById st aid = some account) :
    ((generateStatementForAccount st now sid aid).1 =
      { generated := false, reason := some "Statement already exists", statement := none })
  ↔ ∃ s ∈ st.statements,
      (s.account_id == aid && Date.leb (getFirstDayOfMonth now) s.statement_date) = true := by
  cases hG : st.statements.find? (fun s =>
      s.account_id == aid && Date.leb (getFirstDayOfMonth now) s.statement_date) with
  | some s =>
    constructor
    · intro _
      have hps := List.find?_some hG
      exact ⟨s, List.mem_of_find?_eq_some hG, hps⟩
    · intro _
      rw [generate_already_exists st now sid aid account s hA hG]
  | none =>
    constructor
    · intro h
      have hgen := (generate_success st now sid aid account hA hG).1
      rw [h] at hgen
      simp at hgen
    · rintro ⟨s, hmem, hs⟩
      exact absurd hs (List.find?_eq_none.mp hG s hmem)

/-- Witness for C10: the store already holding a statement dated the second
of the month answers generated false with reason Statement already exists
on the fifteenth of that month. -/
theorem statement_guard_calendar_month_witness :
    (generateStatementForAccount storeWithStatement day0 "stmt_9" "acc_1").1 =
      { generated := false, reason := some "Statement already exists", statement := none } :=
  (statement_guard_calendar_month storeWithStatement day0 "stmt_9" "acc_1"
      (mkAccount 150) rfl).mpr
    ⟨sampleStatement, by simp [storeWithStatement], by decide⟩

end CreditLedger
